import Mathlib

/-!
Verification development for the Numba-cuda repository
(`Section_3_Memory_Management.ipynb` plus the embedded CUDA C
vector-addition program).

The CUDA C program is embedded over exact rationals: buffers are
functions `ℕ → ℚ`, the kernel's sequential loop is a fold over its list
of visited indices, and `main` is a state pipeline that also produces an
event trace.  The notebook's arrays are list-backed records carrying
shape and dtype; the numba library primitives the notebook calls
(`to_device`, `copy_to_host`, vectorized ufunc dispatch) are not part of
this repository, so they are modelled from the spec where noted.
-/

namespace NumbaCuda

/-! ## Definitions: the CUDA C program -/

/-- the constant `#define N 10000` of the C program. -/
def N : ℕ := 10000

/-- the constant `#define MAX_ERR 1E-6` of the C program, as an exact rational. -/
def MAX_ERR : ℚ := 1 / 1000000

/-- memory visible to the `vector_add` kernel: the three float buffers
`a`, `b`, `out`, each modelled as a function from indices to exact values. -/
structure CMem where
  a : ℕ → ℚ
  b : ℕ → ℚ
  out : ℕ → ℚ

/-- store value `v` at index `i` of the `out` buffer, leaving `a` and `b` alone
(the only write the kernel body performs). -/
def writeOut (s : CMem) (i : ℕ) (v : ℚ) : CMem :=
  ⟨s.a, s.b, fun j => if j = i then v else s.out j⟩

/-- one iteration of the kernel loop: `out[i] = a[i] + b[i];`. -/
def loopBody (s : CMem) (i : ℕ) : CMem :=
  writeOut s i (s.a i + s.b i)

/-- the sequence of indices visited by `for(int i = 0; i < n; i++)`. -/
def loopIndices (n : ℕ) : List ℕ := List.range n

/-- the kernel `vector_add(float *out, float *a, float *b, int n)`:
iterate the loop body over the visited indices in program order. -/
def vector_add (m : CMem) (n : ℕ) : CMem :=
  (loopIndices n).foldl loopBody m

/-- one assertion of the verification loop:
`assert(fabs(out[i] - a[i] - b[i]) < MAX_ERR);` passes. -/
def assertPasses (a b out : ℕ → ℚ) (i : ℕ) : Bool :=
  decide (|out i - a i - b i| < MAX_ERR)

/-- the verification loop aborts the process: some index `i < N` fails the
assertion `fabs(out[i] - a[i] - b[i]) < MAX_ERR`. -/
def verifyAborts (a b out : ℕ → ℚ) : Bool :=
  (List.range N).any (fun i => !(assertPasses a b out i))

/-- memory state of `main`: the three host buffers and the three device
buffers.  `malloc`/`cudaMalloc` leave contents uninitialized, so `main` is
parametrized by an arbitrary initial state standing for that garbage. -/
structure MainState where
  hostA : ℕ → ℚ
  hostB : ℕ → ℚ
  hostOut : ℕ → ℚ
  devA : ℕ → ℚ
  devB : ℕ → ℚ
  devOut : ℕ → ℚ

/-- `cudaMemcpy` of `sizeof(float) * n` bytes: indices below `n` come from
the source buffer, the rest of the destination is untouched. -/
def copyN (n : ℕ) (src dst : ℕ → ℚ) : ℕ → ℚ :=
  fun i => if i < n then src i else dst i

/-- the initialization loop of `main`: `a[i] = 1.0f; b[i] = 2.0f;` for `i < N`. -/
def initLoop (s : MainState) : MainState :=
  { s with
    hostA := fun i => if i < N then 1 else s.hostA i
    hostB := fun i => if i < N then 2 else s.hostB i }

/-- `main` after the initialization loop. -/
def stage1 (g : MainState) : MainState := initLoop g

/-- `main` after `cudaMemcpy(d_a, a, sizeof(float)*N, cudaMemcpyHostToDevice)`. -/
def stage2 (g : MainState) : MainState :=
  { stage1 g with devA := copyN N (stage1 g).hostA (stage1 g).devA }

/-- `main` after `cudaMemcpy(d_b, b, sizeof(float)*N, cudaMemcpyHostToDevice)`. -/
def stage3 (g : MainState) : MainState :=
  { stage2 g with devB := copyN N (stage2 g).hostB (stage2 g).devB }

/-- the device memory passed to the kernel launch
`vector_add<<<1,1>>>(d_out, d_a, d_b, N)`. -/
def kernelMem (g : MainState) : CMem :=
  ⟨(stage3 g).devA, (stage3 g).devB, (stage3 g).devOut⟩

/-- `main` after the kernel launch. -/
def stage4 (g : MainState) : MainState :=
  { stage3 g with devOut := (vector_add (kernelMem g) N).out }

/-- the state computed by `main` up to the verification loop, starting from
garbage `g`: initialize hosts, copy `a` and `b` to the device, launch the
kernel, copy `d_out` back to `out`
(`cudaMemcpy(out, d_out, sizeof(float)*N, cudaMemcpyDeviceToHost)`). -/
def mainState (g : MainState) : MainState :=
  { stage4 g with hostOut := copyN N (stage4 g).devOut (stage4 g).hostOut }

/-- the buffers of the C program, for labelling trace events. -/
inductive Buf
  | bufA
  | bufB
  | bufOut
deriving DecidableEq

/-- observable steps taken by `main`, in program order. -/
inductive Event
  | allocHost (x : Buf)
  | initHostArrays
  | allocDevice (x : Buf)
  | copyHtoD (x : Buf)
  | launchKernel
  | copyDtoH (x : Buf)
  | verifyOk
  | assertAbort
  | printOut0
  | printPassed
  | freeDevice (x : Buf)
  | freeHost (x : Buf)
deriving DecidableEq

/-- the event trace of `main`, statement by statement: host allocation and
initialization, the three `cudaMalloc`s, the two host-to-device copies, the
single kernel launch, the device-to-host copy of the result, then either an
assertion abort or the prints and the frees. -/
def mainTrace (g : MainState) : List Event :=
  [Event.allocHost Buf.bufA, Event.allocHost Buf.bufB, Event.allocHost Buf.bufOut,
   Event.initHostArrays,
   Event.allocDevice Buf.bufA, Event.allocDevice Buf.bufB, Event.allocDevice Buf.bufOut,
   Event.copyHtoD Buf.bufA, Event.copyHtoD Buf.bufB,
   Event.launchKernel,
   Event.copyDtoH Buf.bufOut] ++
  (if verifyAborts (mainState g).hostA (mainState g).hostB (mainState g).hostOut
   then [Event.assertAbort]
   else [Event.verifyOk, Event.printOut0, Event.printPassed,
         Event.freeDevice Buf.bufA, Event.freeDevice Buf.bufB, Event.freeDevice Buf.bufOut,
         Event.freeHost Buf.bufA, Event.freeHost Buf.bufB, Event.freeHost Buf.bufOut])

/-- the steps named by the device-workflow description: device allocation,
transfers, the kernel launch, verification (or abort), and the frees. -/
def isCoreStep : Event → Bool
  | Event.allocDevice _ => true
  | Event.copyHtoD _ => true
  | Event.launchKernel => true
  | Event.copyDtoH _ => true
  | Event.verifyOk => true
  | Event.assertAbort => true
  | Event.freeDevice _ => true
  | Event.freeHost _ => true
  | _ => false

/-- recognizer for the kernel-launch event. -/
def isLaunch : Event → Bool
  | Event.launchKernel => true
  | _ => false

/-- `<<<1,1>>>`: the launch grid has one block. -/
def gridDim : ℕ := 1

/-- `<<<1,1>>>`: each block has one thread. -/
def blockDim : ℕ := 1

/-- number of kernel-body instances the launch creates. -/
def kernelInstances : ℕ := gridDim * blockDim

/-- the host array `a` after initialization: all ones. -/
def hostAinit : ℕ → ℚ := fun _ => 1

/-- the host array `b` after initialization: all twos. -/
def hostBinit : ℕ → ℚ := fun _ => 2

/-- an output buffer whose every element is off the expected sum by exactly
`MAX_ERR`. -/
def badOut : ℕ → ℚ := fun _ => 3 + MAX_ERR

/-- an all-zero garbage state, used to instantiate witnesses. -/
def garbage0 : MainState :=
  ⟨fun _ => 0, fun _ => 0, fun _ => 0, fun _ => 0, fun _ => 0, fun _ => 0⟩

/-- an all-zero kernel memory, used to instantiate witnesses. -/
def zeroMem : CMem := ⟨fun _ => 0, fun _ => 0, fun _ => 0⟩

/-! ## Definitions: the notebook -/

/-- numpy dtypes occurring in the notebook. -/
inductive DType
  | float32
  | float64
deriving DecidableEq

/-- a host-resident numpy array: shape, dtype, and flat contents. -/
structure NDArr where
  shape : List ℕ
  dtype : DType
  data : List ℚ

/-- a device-resident array handle, with the same observable fields. -/
structure DevArr where
  shape : List ℕ
  dtype : DType
  data : List ℚ

/-- Modelled from the spec: `cuda.to_device` is the host-to-device transfer
primitive, copying the host array into a fresh device array with the same
shape, dtype and contents. -/
def to_device (x : NDArr) : DevArr := ⟨x.shape, x.dtype, x.data⟩

/-- Modelled from the spec: `copy_to_host` is the device-to-host copy method
on a device array, yielding a host array with the same shape, dtype and
contents. -/
def copy_to_host (d : DevArr) : NDArr := ⟨d.shape, d.dtype, d.data⟩

/-- the scalar function compiled by `@vectorize` into the `add_ufunc` ufunc:
`return x + y`. -/
def add_ufunc (x y : ℚ) : ℚ := x + y

/-- the notebook's buffer size `n = 100000`. -/
def nNB : ℕ := 100000

/-- contents of `np.arange(n)`: the values `0, 1, ..., n - 1`. -/
def xData : List ℚ := (List.range nNB).map (fun i : ℕ => (i : ℚ))

/-- contents of `2 * x`: every element of `x` doubled. -/
def yData : List ℚ := xData.map (fun v => 2 * v)

/-- `x = np.arange(n).astype(np.float32)`. -/
def xHost : NDArr := ⟨[nNB], DType.float32, xData⟩

/-- `y = 2 * x`. -/
def yHost : NDArr := ⟨[nNB], DType.float32, yData⟩

/-- `x_device = cuda.to_device(x)`. -/
def x_device : DevArr := to_device xHost

/-- `y_device = cuda.to_device(y)`. -/
def y_device : DevArr := to_device yHost

/-- Modelled from the spec: vectorized dispatch applies the compiled scalar
function independently to every pair of elements of the device arrays,
writing the results into the preallocated out buffer. -/
def applyUfunc2 (f : ℚ → ℚ → ℚ) (x y : DevArr) : DevArr :=
  ⟨x.shape, x.dtype, List.zipWith f x.data y.data⟩

/-- `add_ufunc(x_device, y_device, out=out_device)`. -/
def out_device_result : DevArr := applyUfunc2 add_ufunc x_device y_device

/-- `out_host = out_device.copy_to_host()`. -/
def out_host : NDArr := copy_to_host out_device_result

/-- the scalar function compiled by `@vectorize` into `make_pulses`:
`return max(math.sin(i / period) - 0.3, 0.0) * amplitude`, over the reals. -/
noncomputable def make_pulses (i period amplitude : ℝ) : ℝ :=
  max (Real.sin (i / period) - 0.3) 0.0 * amplitude

/-- clamping at zero, the first stage in the spec's wording. -/
def clampAtZero (v : ℝ) : ℝ := max v 0

/-- the spec's reading of `make_pulses`: subtract 0.3 from the sine of
`i / period`, clamp the result at zero, then scale by `amplitude`. -/
noncomputable def make_pulses_spec (i period amplitude : ℝ) : ℝ :=
  clampAtZero (Real.sin (i / period) - 0.3) * amplitude

/-- a compiled ufunc signature: the exact argument dtypes it accepts. -/
structure UFuncSig where
  args : List DType
deriving DecidableEq

/-- the single signature `@vectorize` compiles for `make_pulses`:
`float32(float32, float32, float32)`. -/
def make_pulses_sigs : List UFuncSig :=
  [⟨[DType.float32, DType.float32, DType.float32]⟩]

/-- outcome of the CUDA ufunc mechanism's signature resolution. -/
inductive DispatchResult
  | resolved (s : UFuncSig)
  | noMatchingVersion
deriving DecidableEq

/-- Modelled from the library traceback recorded in the notebook's final
cell: signature resolution searches the compiled signatures for one whose
argument dtypes match the call's array arguments exactly, and raises
`TypeError` (No matching version) when none does. -/
def resolveSignature (sigs : List UFuncSig) (argts : List DType) : DispatchResult :=
  match sigs.find? (fun s => s.args == argts) with
  | some s => DispatchResult.resolved s
  | none => DispatchResult.noMatchingVersion

/-- Modelled from the spec: `cuda.to_device` applied to a Python float scalar
wraps it as a zero-dimensional device buffer; a Python float is double
precision, so that buffer's dtype is float64, not float32. -/
def to_device_float (v : ℚ) : DevArr := ⟨[], DType.float64, [v]⟩

/-- `t = np.arange(n, dtype=np.float32)`, same contents as `x`. -/
def tHost : NDArr := ⟨[nNB], DType.float32, xData⟩

/-- `period = n / 23`. -/
def period : ℚ := 100000 / 23

/-- `t_device = cuda.to_device(t)`. -/
def t_device : DevArr := to_device tHost

/-- `period_device = cuda.to_device(period)`. -/
def period_device : DevArr := to_device_float period

/-- `amp_device = cuda.to_device(100.0)`. -/
def amp_device : DevArr := to_device_float 100

/-- the argument dtypes of the failing call
`make_pulses(t_device, period_device, amp_device, out=pulse_device)`. -/
def failingCallArgTypes : List DType :=
  [t_device.dtype, period_device.dtype, amp_device.dtype]

/-- how a notebook cell ends: normally, or with an exception propagating out
unhandled. -/
inductive CellOutcome
  | completed
  | raised
deriving DecidableEq

/-- the final cell calls `make_pulses` on the staged device buffers and
installs no exception handler, so a dispatch error propagates out. -/
def lastCellOutcome : CellOutcome :=
  match resolveSignature make_pulses_sigs failingCallArgTypes with
  | DispatchResult.resolved _ => CellOutcome.completed
  | DispatchResult.noMatchingVersion => CellOutcome.raised

/-! ## Lemmas about the kernel and the verification loop -/

lemma vector_add_zero (m : CMem) : vector_add m 0 = m := rfl

lemma vector_add_succ (m : CMem) (n : ℕ) :
    vector_add m (n + 1) = loopBody (vector_add m n) n := by
  simp [vector_add, loopIndices, List.range_succ]

lemma vector_add_a (m : CMem) (n : ℕ) : (vector_add m n).a = m.a := by
  induction n with
  | zero => rfl
  | succ k ih => rw [vector_add_succ]; simpa [loopBody, writeOut] using ih

lemma vector_add_b (m : CMem) (n : ℕ) : (vector_add m n).b = m.b := by
  induction n with
  | zero => rfl
  | succ k ih => rw [vector_add_succ]; simpa [loopBody, writeOut] using ih

lemma vector_add_out_ge (m : CMem) {n j : ℕ} (h : n ≤ j) :
    (vector_add m n).out j = m.out j := by
  induction n with
  | zero => rfl
  | succ k ih =>
      rw [vector_add_succ]
      have hj : j ≠ k := by omega
      simp only [loopBody, writeOut, if_neg hj]
      exact ih (by omega)

lemma vector_add_out_lt (m : CMem) {n j : ℕ} (h : j < n) :
    (vector_add m n).out j = m.a j + m.b j := by
  induction n with
  | zero => omega
  | succ k ih =>
      rw [vector_add_succ]
      by_cases hj : j = k
      · subst hj
        simp [loopBody, writeOut, vector_add_a, vector_add_b]
      · have hlt : j < k := by omega
        simp only [loopBody, writeOut, if_neg hj]
        exact ih hlt

lemma verifyAborts_iff (a b out : ℕ → ℚ) :
    verifyAborts a b out = true ↔
      ∃ i, i < N ∧ MAX_ERR ≤ |out i - (a i + b i)| := by
  simp [verifyAborts, assertPasses, List.any_eq_true, List.mem_range, not_lt,
    sub_sub]

/-! ## Lemmas about the state of main -/

lemma mainState_hostA_eq (g : MainState) :
    (mainState g).hostA = (stage1 g).hostA := rfl

lemma mainState_hostB_eq (g : MainState) :
    (mainState g).hostB = (stage1 g).hostB := rfl

lemma mainState_hostOut_eq (g : MainState) :
    (mainState g).hostOut = copyN N (stage4 g).devOut (stage4 g).hostOut := rfl

lemma kernelMem_a (g : MainState) :
    (kernelMem g).a = copyN N (stage1 g).hostA (stage1 g).devA := rfl

lemma kernelMem_b (g : MainState) :
    (kernelMem g).b = copyN N (stage1 g).hostB (stage1 g).devB := rfl

lemma stage1_hostA (g : MainState) (i : ℕ) (h : i < N) :
    (stage1 g).hostA i = 1 := by
  simp [stage1, initLoop, if_pos h]

lemma stage1_hostB (g : MainState) (i : ℕ) (h : i < N) :
    (stage1 g).hostB i = 2 := by
  simp [stage1, initLoop, if_pos h]

lemma mainState_hostA (g : MainState) (i : ℕ) (h : i < N) :
    (mainState g).hostA i = 1 := by
  rw [mainState_hostA_eq]; exact stage1_hostA g i h

lemma mainState_hostB (g : MainState) (i : ℕ) (h : i < N) :
    (mainState g).hostB i = 2 := by
  rw [mainState_hostB_eq]; exact stage1_hostB g i h

lemma mainState_hostOut (g : MainState) (i : ℕ) (h : i < N) :
    (mainState g).hostOut i = 3 := by
  rw [mainState_hostOut_eq]
  simp only [copyN]
  rw [if_pos h]
  simp only [stage4]
  rw [vector_add_out_lt _ h, kernelMem_a, kernelMem_b]
  simp only [copyN]
  rw [if_pos h, if_pos h, stage1_hostA g i h, stage1_hostB g i h]
  norm_num

lemma mainState_verify_passes (g : MainState) :
    verifyAborts (mainState g).hostA (mainState g).hostB (mainState g).hostOut
      = false := by
  rw [← Bool.not_eq_true, verifyAborts_iff]
  rintro ⟨i, hi, habs⟩
  rw [mainState_hostA g i hi, mainState_hostB g i hi, mainState_hostOut g i hi]
    at habs
  norm_num [MAX_ERR] at habs

/-! ## Lemmas about the notebook pipeline -/

lemma zipWith_map_same {α β γ δ : Type} (f : β → γ → δ) (g : α → β) (h : α → γ)
    (l : List α) :
    List.zipWith f (l.map g) (l.map h) = l.map (fun x => f (g x) (h x)) := by
  induction l with
  | nil => rfl
  | cons a t ih => simp [ih]

lemma out_host_data :
    out_host.data = (List.range nNB).map (fun i : ℕ => 3 * (i : ℚ)) := by
  simp only [out_host, copy_to_host, out_device_result, applyUfunc2, x_device,
    y_device, to_device, xHost, yHost, yData, xData]
  rw [List.map_map, zipWith_map_same]
  have hfun :
      (fun x : ℕ => add_ufunc ((x : ℚ))
          (((fun v : ℚ => 2 * v) ∘ fun i : ℕ => (i : ℚ)) x))
        = fun x : ℕ => 3 * (x : ℚ) := by
    funext x
    simp only [Function.comp, add_ufunc]
    ring
  rw [hfun]

/-! ## The claims -/

/-- Claim C1: in the C program with `N = 10000`, after initializing
`a[i] = 1.0` and `b[i] = 2.0`, running the `vector_add` kernel, and copying
the result back, each `out[i]` with `i < N` equals `a[i] + b[i]` (which is
`3.0`), within absolute tolerance `1e-6`. -/
theorem c1_main_output_correct (g : MainState) (i : ℕ) (h : i < N) :
    N = 10000 ∧
    (mainState g).hostOut i = (mainState g).hostA i + (mainState g).hostB i ∧
    (mainState g).hostOut i = 3 ∧
    |(mainState g).hostOut i - 3| < MAX_ERR := by
  refine ⟨rfl, ?_, mainState_hostOut g i h, ?_⟩
  · rw [mainState_hostOut g i h, mainState_hostA g i h, mainState_hostB g i h]
    norm_num
  · rw [mainState_hostOut g i h]
    norm_num [MAX_ERR]

/-- witness for C1 at index `0` and all-zero initial garbage. -/
theorem c1_main_output_correct_witness :
    0 < N ∧
    (N = 10000 ∧
     (mainState garbage0).hostOut 0
       = (mainState garbage0).hostA 0 + (mainState garbage0).hostB 0 ∧
     (mainState garbage0).hostOut 0 = 3 ∧
     |(mainState garbage0).hostOut 0 - 3| < MAX_ERR) :=
  ⟨by norm_num [N], c1_main_output_correct garbage0 0 (by norm_num [N])⟩

/-- Claim C2 counterexample: with every output element off the expected sum
by exactly `1e-6`, no element deviates by more than `1e-6`, yet the
verification loop still aborts, because the assertion requires a strict
`fabs(out[i] - a[i] - b[i]) < MAX_ERR`. -/
theorem c2_strict_boundary_counterexample :
    verifyAborts hostAinit hostBinit badOut = true ∧
    ¬ ∃ i, i < N ∧ MAX_ERR < |badOut i - (hostAinit i + hostBinit i)| := by
  constructor
  · rw [verifyAborts_iff]
    refine ⟨0, by norm_num [N], ?_⟩
    have hval : badOut 0 - (hostAinit 0 + hostBinit 0) = MAX_ERR := by
      norm_num [badOut, hostAinit, hostBinit]
    rw [hval, abs_of_pos (by norm_num [MAX_ERR])]
  · rintro ⟨i, hi, habs⟩
    have hval : badOut i - (hostAinit i + hostBinit i) = MAX_ERR := by
      norm_num [badOut, hostAinit, hostBinit]
    rw [hval, abs_of_pos (by norm_num [MAX_ERR])] at habs
    exact lt_irrefl _ habs

/-- Claim C2 (amended): the C program's `main` aborts via an assertion
failure if and only if some output element deviates from the expected sum
`a[i] + b[i]` by at least `1e-6`; otherwise every assertion passes and the
abort path is never taken. -/
theorem c2_abort_iff_deviation_ge (a b out : ℕ → ℚ) :
    verifyAborts a b out = true ↔
      ∃ i, i < N ∧ MAX_ERR ≤ |out i - (a i + b i)| :=
  verifyAborts_iff a b out

/-- Claim C3: for the notebook's buffers of size `n = 100000` with
`x[i] = i` and `y[i] = 2 * x[i]`, the elementwise sum computed through
device staging equals `3 * i` exactly at every index, and its first ten
elements are `[0, 3, 6, 9, 12, 15, 18, 21, 24, 27]`. -/
theorem c3_add_ufunc_sum (i : ℕ) (h : i < nNB) :
    out_host.data[i]? = some (3 * (i : ℚ)) ∧
    out_host.data.take 10
      = [0, 3, 6, 9, 12, 15, 18, 21, 24, 27] := by
  constructor
  · rw [out_host_data, List.getElem?_map, List.getElem?_range h]
    rfl
  · rw [out_host_data, ← List.map_take, List.take_range, inf_eq_min,
      min_eq_left (by norm_num [nNB] : (10 : ℕ) ≤ nNB)]
    norm_num [List.range_succ]

/-- witness for C3 at index `7`. -/
theorem c3_add_ufunc_sum_witness :
    7 < nNB ∧
    (out_host.data[(7 : ℕ)]? = some (3 * ((7 : ℕ) : ℚ)) ∧
     out_host.data.take 10
       = [0, 3, 6, 9, 12, 15, 18, 21, 24, 27]) :=
  ⟨by norm_num [nNB], c3_add_ufunc_sum 7 (by norm_num [nNB])⟩

/-- Claim C4: for every triple of inputs, `make_pulses` returns
`max(sin(i / period) - 0.3, 0.0) * amplitude`, i.e. a clamp at zero of the
sine minus `0.3`, followed by a scale by `amplitude`. -/
theorem c4_make_pulses_clamp_scale (i p a : ℝ) :
    make_pulses i p a = make_pulses_spec i p a := by
  norm_num [make_pulses, make_pulses_spec, clampAtZero]

/-- Claim C5: restricted to device-buffer management, transfers, the kernel
launch, verification and frees, the trace of `main` is exactly: allocate the
three device buffers, copy `a` and `b` host-to-device, one kernel launch,
copy the result device-to-host, verification (which passes), then the
frees. -/
theorem c5_main_step_order (g : MainState) :
    (mainTrace g).filter isCoreStep =
      [Event.allocDevice Buf.bufA, Event.allocDevice Buf.bufB,
       Event.allocDevice Buf.bufOut,
       Event.copyHtoD Buf.bufA, Event.copyHtoD Buf.bufB,
       Event.launchKernel,
       Event.copyDtoH Buf.bufOut,
       Event.verifyOk,
       Event.freeDevice Buf.bufA, Event.freeDevice Buf.bufB,
       Event.freeDevice Buf.bufOut,
       Event.freeHost Buf.bufA, Event.freeHost Buf.bufB,
       Event.freeHost Buf.bufOut] := by
  unfold mainTrace
  rw [mainState_verify_passes g]
  rfl

/-- Claim C6: the launch configuration `<<<1,1>>>` creates a single kernel
instance (one block of one thread), and the kernel's loop visits exactly the
indices `0` through `n - 1`, in strictly increasing order. -/
theorem c6_single_thread_sequential (g : MainState) (n : ℕ) :
    kernelInstances = 1 ∧
    ((mainTrace g).filter isLaunch).length = 1 ∧
    List.Pairwise (· < ·) (loopIndices n) ∧
    (∀ i, i ∈ loopIndices n ↔ i < n) := by
  refine ⟨rfl, ?_, ?_, ?_⟩
  · unfold mainTrace
    rw [mainState_verify_passes g]
    rfl
  · simpa [loopIndices] using List.pairwise_lt_range n
  · intro i
    simp [loopIndices, List.mem_range]

/-- Claim C7: the notebook's final cell resolves `make_pulses` against
argument dtypes `[float32, float64, float64]` (the scalars staged through
`to_device` become float64 zero-dimensional buffers), finds no matching
compiled signature, raises the TypeError (No matching version), and the cell
leaves the failure unhandled. -/
theorem c7_dispatch_type_error :
    resolveSignature make_pulses_sigs failingCallArgTypes
      = DispatchResult.noMatchingVersion ∧
    lastCellOutcome = CellOutcome.raised :=
  ⟨rfl, rfl⟩

/-- Claim C8: `vector_add` writes only the `out` buffer: the inputs `a` and
`b` are returned unchanged, and every index of `out` at or beyond `n` keeps
its previous contents. -/
theorem c8_vector_add_frame (m : CMem) (n j : ℕ) (h : n ≤ j) :
    (vector_add m n).a = m.a ∧
    (vector_add m n).b = m.b ∧
    (vector_add m n).out j = m.out j :=
  ⟨vector_add_a m n, vector_add_b m n, vector_add_out_ge m h⟩

/-- witness for C8 with the all-zero memory, `n = 2`, `j = 5`. -/
theorem c8_vector_add_frame_witness :
    2 ≤ 5 ∧
    ((vector_add zeroMem 2).a = zeroMem.a ∧
     (vector_add zeroMem 2).b = zeroMem.b ∧
     (vector_add zeroMem 2).out 5 = zeroMem.out 5) :=
  ⟨by norm_num, c8_vector_add_frame zeroMem 2 5 (by norm_num)⟩

/-- Claim C9: for every host array, the round trip `cuda.to_device` then
`copy_to_host()` yields a host array equal element for element, with the
same shape and the same dtype. -/
theorem c9_roundtrip_id (x : NDArr) :
    (copy_to_host (to_device x)).data = x.data ∧
    (copy_to_host (to_device x)).shape = x.shape ∧
    (copy_to_host (to_device x)).dtype = x.dtype :=
  ⟨rfl, rfl, rfl⟩

/-- Claim C10: whenever `amplitude ≥ 0`, the value of `make_pulses` is
nonnegative (the clamp at zero forbids negative pre-scale values) and at
most `0.7 * amplitude` (since `sin(i / period) - 0.3 ≤ 0.7`). -/
theorem c10_make_pulses_bounds (i p a : ℝ) (h : 0 ≤ a) :
    0 ≤ make_pulses i p a ∧ make_pulses i p a ≤ 0.7 * a := by
  have h00 : (0.0 : ℝ) = 0 := by norm_num
  unfold make_pulses
  rw [h00]
  constructor
  · exact mul_nonneg (le_max_right _ _) h
  · have hs : Real.sin (i / p) ≤ 1 := Real.sin_le_one _
    have hmax : max (Real.sin (i / p) - 0.3) 0 ≤ 0.7 :=
      max_le (by linarith) (by norm_num)
    exact mul_le_mul_of_nonneg_right hmax h

/-- witness for C10 at `i = 0`, `period = 1`, `amplitude = 1`. -/
theorem c10_make_pulses_bounds_witness :
    (0 : ℝ) ≤ 1 ∧
    (0 ≤ make_pulses 0 1 1 ∧ make_pulses 0 1 1 ≤ 0.7 * 1) :=
  ⟨by norm_num, c10_make_pulses_bounds 0 1 1 (by norm_num)⟩

end NumbaCuda
